import Mathlib

/-!
Shallow embedding of the content-production pipeline of the
`becoming-social-factory` repository: the daily scheduler, the per-stage
job handlers (content, render, publish), the render lock, the palette
anti-repetition rule and the quote fitness predicate, together with
theorems settling the frozen claims about them.

Sources embedded: `src/scheduler/index.ts`, `src/db/index.ts`,
`src/utils/renderLock.ts`, the template module (palettes and
`selectPalette`), the static renderer's `checkQuoteFit` and the quote
generator's fallback machinery.
-/

namespace Factory

/-! ## Data model (`src/types.ts`, `src/db`) -/

/-- Post status enum, as stored in the `posts` table. -/
inductive Status where
  | pending
  | generating
  | generated
  | awaiting_manual_publish
  | publishing
  | published
  | failed
deriving DecidableEq, Repr

/-- Post format: static image or video. -/
inductive Format where
  | static
  | video
deriving DecidableEq, Repr

/-- A row of the `posts` table, restricted to the fields the pipeline
reads or writes.  `scheduledDate` is the calendar date of `scheduled_at`
in the configured timezone (the DB computes it with `AT TIME ZONE`);
`scheduledAt` is the instant itself, abstracted to a number for
comparisons against `NOW()`. -/
structure Post where
  id : String
  platform : String
  format : Format
  paletteId : String
  status : Status
  scheduledDate : String
  scheduledAt : Nat
  quote : String
  quoteType : String
  caption : String
  hashtags : List String
  altText : String
  assetPath : Option String
  assetUrl : Option String
  platformPostId : Option String
  error : Option String
deriving DecidableEq, Repr

/-- Settings row (`db.getSettings`). -/
structure Settings where
  timezone : String
  dailyPostCount : Nat
  postWindowStart : String
  postWindowEnd : String
  instagramEnabled : Bool
  tiktokEnabled : Bool
  autoPublishInstagram : Bool
deriving Repr

/-! ## Time-slot computation (`calculateTimes`, scheduler/index.ts) -/

/-- `String(n).padStart(2, '0')` for a natural number. -/
def pad2 (n : Nat) : String :=
  if n < 10 then "0" ++ toString n else toString n

/-- JS `String.prototype.split` on a single-character separator, over the
character list of the string. -/
def splitChars (sep : Char) : List Char → List (List Char)
  | [] => [[]]
  | c :: cs =>
    match splitChars sep cs with
    | [] => [[c]]
    | g :: gs => if c = sep then [] :: g :: gs else (c :: g) :: gs

/-- JS `Number(s)` on an all-digit decimal string, as a left fold. -/
def charsToNatAux (acc : Nat) : List Char → Nat
  | [] => acc
  | c :: cs => charsToNatAux (acc * 10 + (c.toNat - Char.toNat '0')) cs

/-- `start.split(':').map(Number)` followed by `h * 60 + m`:
minutes past midnight of an `"HH:MM"` string. -/
def parseMinutes (s : String) : Int :=
  match (splitChars ':' s.data).map (fun p => (charsToNatAux 0 p : Int)) with
  | [h, m] => h * 60 + m
  | _ => 0

/-- `Math.round` applied to the exact rational `n / d` (for `d > 0`):
`Math.round x = ⌊x + 1/2⌋`, and `⌊n/d + 1/2⌋ = ⌊(2n + d) / (2d)⌋`. -/
def jsRoundDiv (n d : Int) : Int := (2 * n + d).fdiv (2 * d)

theorem jsRoundDiv_eq_round (n : Int) (d : Nat) (hd : 0 < d) :
    jsRoundDiv n d = round ((n : ℚ) / (d : ℚ)) := by
  rw [round_eq, jsRoundDiv]
  have key : (n : ℚ) / (d : ℚ) + 1 / 2 = ((2 * n + d : ℤ) : ℚ) / ((2 * d : Nat) : ℚ) := by
    push_cast
    field_simp
    ring
  rw [key, Rat.floor_intCast_div_natCast (2 * n + d) (2 * d),
    Int.fdiv_eq_ediv _ (by positivity)]
  norm_num

/-- `calculateTimes(count, start, end)`: evenly spaced `"HH:MM"` strings.
The source computes `interval = range / (count - 1)` when `count > 1`
(else `0`) and `minutes = Math.round(startMinutes + interval * i)`;
over exact arithmetic `startMinutes + (range / (count - 1)) * i` equals
`(startMinutes * (count - 1) + range * i) / (count - 1)`, rounded here
with `jsRoundDiv` (see `jsRoundDiv_eq_round`). -/
def calculateTimes (count : Nat) (start stop : String) : List String :=
  let startMinutes : Int := parseMinutes start
  let endMinutes : Int := parseMinutes stop
  let range : Int := endMinutes - startMinutes
  (List.range count).map (fun i =>
    let minutes : Nat :=
      (if count > 1 then
        jsRoundDiv (startMinutes * ((count : Int) - 1) + range * (i : Int)) ((count : Int) - 1)
      else startMinutes).toNat
    pad2 (minutes / 60) ++ ":" ++ pad2 (minutes % 60))

/-! ## Template: palettes and anti-repetition (`src/template.ts`) -/

/-- A visual palette of the template configuration. -/
structure Palette where
  id : String
  name : String
  background : String
  backgroundVideo : String
  logo : String
  textColorPrimary : String
  textColorSecondary : String
  dustColors : List String
deriving DecidableEq, Repr

def palette1 : Palette :=
  ⟨"palette1", "Navy", "assets/palette1/background.png",
    "assets/palette1/background-video.png", "assets/palette1/logo.png",
    "#FFFFFF", "rgba(255,255,255,0.65)", ["#14b8a6", "#ffa726", "#71717a"]⟩

def palette2 : Palette :=
  ⟨"palette2", "Peachy", "assets/palette2/background.png",
    "assets/palette2/background-video.png", "assets/palette2/logo.png",
    "#7A8B8B", "rgba(122,139,139,0.65)", ["#a7c7d6", "#c8b6ea", "#6a6a6a"]⟩

def palette3 : Palette :=
  ⟨"palette3", "Terracotta", "assets/palette3/background.png",
    "assets/palette3/background-video.png", "assets/palette3/logo.png",
    "#F5EBE0", "rgba(245,235,224,0.65)", ["#8db255", "#f4a442", "#71717a"]⟩

/-- `template.palettes`. -/
def templatePalettes : List Palette := [palette1, palette2, palette3]

/-- `template.antiRepetition.maxConsecutiveSamePalette`. -/
def maxConsecutiveSamePalette : Nat := 2

/-- `getPalette(id)`. -/
def getPalette (pid : String) : Option Palette :=
  templatePalettes.find? (fun p => p.id == pid)

/-- The `available` candidate list inside `selectPalette`: the last
`maxConsecutiveSamePalette` entries of the recent-id list are counted
for occurrences of the most recent id (`recentPaletteIds[0]`), and when
that count reaches the limit the most recent id is filtered out of
`template.palettes`. -/
def availablePalettes (recentPaletteIds : List String) : List Palette :=
  let lastPaletteId := recentPaletteIds.head?
  let consecutiveCount :=
    ((recentPaletteIds.take maxConsecutiveSamePalette).filter
      (fun pid => some pid == lastPaletteId)).length
  if maxConsecutiveSamePalette ≤ consecutiveCount then
    templatePalettes.filter (fun p => !(some p.id == lastPaletteId))
  else
    templatePalettes

/-- `selectPalette(recentPaletteIds)`: uniform random pick
`available[Math.floor(Math.random() * available.length)]`, with the
random draw modelled by an arbitrary natural number reduced modulo the
candidate count. -/
def selectPalette (recentPaletteIds : List String) (rand : Nat) : Palette :=
  let available := availablePalettes recentPaletteIds
  available.getD (rand % available.length) palette1

/-- Recent-id list after `n` selections: each selection is unshifted onto
the front, exactly as `scheduleDailyPosts` maintains `recentPalettes`. -/
def selPaletteSeq (rands : Nat → Nat) (recent0 : List String) : Nat → List String
  | 0 => recent0
  | n + 1 =>
    (selectPalette (selPaletteSeq rands recent0 n) (rands n)).id ::
      selPaletteSeq rands recent0 n

/-- The `n`-th palette selected in such a run. -/
def selAt (rands : Nat → Nat) (recent0 : List String) (n : Nat) : Palette :=
  selectPalette (selPaletteSeq rands recent0 n) (rands n)

/-! ## Fitness predicate (`checkQuoteFit`, static renderer) -/

/-- `checkQuoteFit(quote)`: with the sharp renderer text always fits
(wrapped and resized), so the only constraint is `quote.length <= 200`. -/
def checkQuoteFit (quote : String) : Bool :=
  quote.length ≤ 200

/-! ## Quote generator (`src/generator/index.ts`) -/

/-- `FALLBACK_QUOTES.inquiry`. -/
def fallbackInquiry : List String :=
  ["What small choice today would your future self thank you for?",
   "Who are you becoming with each decision you make?",
   "What would you attempt if doubt wasn't in the room?",
   "What does this moment ask of you?",
   "How would you show up if you already were who you want to become?"]

/-- `FALLBACK_QUOTES.manifesto`. -/
def fallbackManifesto : List String :=
  ["You don't have to be ready. You just have to begin.",
   "Every small choice is a vote for who you're becoming.",
   "Growth isn't about perfection. It's about presence.",
   "You are already in motion. Trust the direction.",
   "The person you want to be is built one moment at a time."]

/-- `FALLBACK_QUOTES.insight`. -/
def fallbackInsight : List String :=
  ["Before you react, pause. Ask: is this who I want to be?",
   "When doubt speaks loudly, act anyway—quietly.",
   "Progress hides in the ordinary moments.",
   "The obstacle reveals the next step. Look closer.",
   "Character is built in the choices no one else sees."]

/-- `FALLBACK_QUOTES[type]` for the three valid quote types. -/
def fallbackQuotes (t : String) : List String :=
  if t == "inquiry" then fallbackInquiry
  else if t == "manifesto" then fallbackManifesto
  else fallbackInsight

/-- `toLowerCase` on an ASCII character (the quote corpus is ASCII plus
punctuation left untouched by lowercasing). -/
def lowerChar (c : Char) : Char :=
  if 65 ≤ c.toNat && c.toNat ≤ 90 then Char.ofNat (c.toNat + 32) else c

/-- Word set of a quote: lowercased, split on whitespace, deduplicated
(JS builds `new Set(s.toLowerCase().split(/\s+/))`). -/
def wordSet (s : String) : List String :=
  (((splitChars ' ' (s.data.map lowerChar)).map (fun cs => String.mk cs)).filter
    (fun w => !(w == ""))).dedup

/-- `isTooSimilar(newQuote, recentQuotes)`: Jaccard similarity of word
sets above one half against any recent quote.  The float comparison
`intersection / union > 0.5` is the integer comparison
`2 * intersection > union`. -/
def isTooSimilar (newQuote : String) (recentQuotes : List String) : Bool :=
  let newWords := wordSet newQuote
  recentQuotes.any (fun recent =>
    let recentWords := wordSet recent
    let intersection := (newWords.filter (fun w => recentWords.contains w)).length
    let union := (newWords ++ recentWords).dedup.length
    2 * intersection > union)

/-- The weighted quote-type selection over weights `[0.4, 0.35, 0.25]`,
with `Math.random()` modelled as a natural number of hundredths in
`[0, 100)`: cumulative thresholds `40` and `75`. -/
def selectTypeFromRand (r : Nat) : String :=
  if r < 40 then "inquiry" else if r < 75 then "manifesto" else "insight"

/-- A generated quote: text plus type classification. -/
structure GeneratedQuote where
  text : String
  type : String
deriving DecidableEq, Repr

/-- `getFallbackQuote(recentQuotes)`: weighted random type, then a
uniform pick among the fallback quotes of that type that are not too
similar to recent quotes (falling back to the full per-type list if all
are too similar). -/
def getFallbackQuote (recentQuotes : List String) (randType randPick : Nat) :
    GeneratedQuote :=
  let selectedType := selectTypeFromRand randType
  let candidates :=
    (fallbackQuotes selectedType).filter (fun q => !(isTooSimilar q recentQuotes))
  let pool := if candidates.length > 0 then candidates else fallbackQuotes selectedType
  ⟨pool.getD (randPick % pool.length) "", selectedType⟩

/-- `generateQuote(recentQuotes)`: the OpenAI call is modelled by
`apiText` (`none` = network/API failure or empty response).  A returned
text failing the validation `!text || length > 120 || length < 20`
throws, and the surrounding catch falls back; a text too similar to
recent quotes also falls back; otherwise the API text is returned with
the pre-selected type. -/
def generateQuote (apiText : Option String) (targetType : String)
    (recentQuotes : List String) (randType randPick : Nat) : GeneratedQuote :=
  match apiText with
  | none => getFallbackQuote recentQuotes randType randPick
  | some text =>
    if text == "" || text.length > 120 || text.length < 20 then
      getFallbackQuote recentQuotes randType randPick
    else if isTooSimilar text recentQuotes then
      getFallbackQuote recentQuotes randType randPick
    else ⟨text, targetType⟩

/-! ## Daily scheduling (`scheduleDailyPosts`, `db.postsExistForDate`) -/

/-- `db.postsExistForDate(date, timezone)`: does any post row's
`scheduled_at`, converted to a calendar date in the configured timezone,
equal the given date?  The timezone conversion is abstracted into the
`scheduledDate` field. -/
def postsExistForDate (posts : List Post) (date : String) : Bool :=
  posts.any (fun p => p.scheduledDate == date)

/-- A freshly inserted post row (`db.createPost`): the schema defaults
`status` to `'pending'` and leaves stage outputs empty. -/
def mkPost (pid : String) (platform : String) (format : Format)
    (paletteId : String) (dateStr : String) (time : String) : Post :=
  { id := pid, platform := platform, format := format, paletteId := paletteId,
    status := Status.pending, scheduledDate := dateStr,
    scheduledAt := (parseMinutes time).toNat,
    quote := "", quoteType := "", caption := "", hashtags := [], altText := "",
    assetPath := none, assetUrl := none, platformPostId := none, error := none }

/-- Result of a `scheduleDailyPosts` invocation: the post table afterwards
and the content jobs enqueued (by post id, in order). -/
structure SchedResult where
  posts : List Post
  contentJobs : List String
deriving DecidableEq, Repr

/-- The creation loop of `scheduleDailyPosts` over the remaining
`(time, format)` slots: selects a palette (consuming one random draw per
slot), unshifts its id onto the recent list, and, when Instagram is
enabled, creates one pending post and enqueues one content job. -/
def schedLoop (instagramEnabled : Bool) (dateStr : String) (newId : Nat → String)
    (rands : Nat → Nat) :
    List (String × Format) → Nat → List String → List Post × List String
  | [], _, _ => ([], [])
  | (time, format) :: rest, i, recentPalettes =>
    let palette := selectPalette recentPalettes (rands i)
    let recent := palette.id :: recentPalettes
    let r := schedLoop instagramEnabled dateStr newId rands rest (i + 1) recent
    if instagramEnabled then
      let post := mkPost (newId i) "instagram" format palette.id dateStr time
      (post :: r.1, post.id :: r.2)
    else r

/-- `scheduleDailyPosts()`: no-op (logged, returned without error) when
any post already exists for the date; otherwise computes the time slots,
alternates static/video formats by slot parity, and creates the posts.
`recentPalettes` is the `db.getRecentPalettes(10)` snapshot, `newId` the
id supply of the insert statements and `rands` the random draws of the
palette selections. -/
def scheduleDailyPosts (settings : Settings) (dateStr : String)
    (posts : List Post) (recentPalettes : List String)
    (newId : Nat → String) (rands : Nat → Nat) : SchedResult :=
  if postsExistForDate posts dateStr then
    ⟨posts, []⟩
  else
    let times := calculateTimes settings.dailyPostCount
      settings.postWindowStart settings.postWindowEnd
    let formats := (List.range times.length).map
      (fun i => if i % 2 == 0 then Format.static else Format.video)
    let r := schedLoop settings.instagramEnabled dateStr newId rands
      (times.zip formats) 0 recentPalettes
    ⟨posts ++ r.1, r.2⟩

/-! ## Content stage (`processContentJob`) -/

/-- The payload produced by `generateContent`: a quote plus caption,
hashtags and alt text. -/
structure GeneratedContent where
  quote : GeneratedQuote
  caption : String
  hashtags : List String
  altText : String
deriving DecidableEq, Repr

/-- The `do { content = generateContent(); attempts++ } while
(!checkQuoteFit(content.quote.text) && attempts < 5)` loop, with the
generator modelled as a map from zero-based attempt index to output.
Returns the last candidate and the number of generator invocations.
`fuel` only forces termination; the source loop stops by its own
`attempts < 5` guard before fuel `5` runs out. -/
def retryLoop (gen : Nat → GeneratedContent) (attempts fuel : Nat) :
    GeneratedContent × Nat :=
  let content := gen attempts
  let a := attempts + 1
  match fuel with
  | 0 => (content, a)
  | f + 1 =>
    if !checkQuoteFit content.quote.text && a < 5 then retryLoop gen a f
    else (content, a)

/-- Outcome of a content-stage handler run: the item row afterwards, the
render jobs enqueued, the quote-history rows appended, and whether the
handler completed without throwing. -/
structure ContentOutcome where
  post : Post
  renderJobs : List String
  historyAdded : List (String × String)
  ok : Bool
deriving DecidableEq, Repr

/-- `processContentJob(postId)`: unconditionally marks the item
`generating`, runs the fitness-retry loop, and on a fitting quote saves
the payload (status left at `generating`), appends to quote history and
enqueues the render job; if the final candidate still does not fit it
throws, and the catch persists `failed` plus the error. -/
def processContentJob (post : Post) (gen : Nat → GeneratedContent) :
    ContentOutcome :=
  let post1 := { post with status := Status.generating }
  let r := retryLoop gen 0 5
  let content := r.1
  if checkQuoteFit content.quote.text then
    ⟨{ post1 with
        quote := content.quote.text
        quoteType := content.quote.type
        caption := content.caption
        hashtags := content.hashtags
        altText := content.altText },
      [post.id], [(content.quote.text, content.quote.type)], true⟩
  else
    ⟨{ post1 with
        status := Status.failed,
        error := some "Error: Could not generate quote that fits" },
      [], [], false⟩

/-! ## Render stage (`processRenderJob`, `checkAndPublish`) -/

/-- Result of the render collaborator (`renderStatic` / `renderVideo`). -/
structure RenderResult where
  success : Bool
  error : Option String
deriving DecidableEq, Repr

/-- `processRenderJob(postId)` after the item and palette are found:
renders to `outputDir/<id>.<ext>`, and on success stores the asset path
and URL and sets the status — `awaiting_manual_publish` for video
formats, `generated` for static images; on render failure it persists
`failed` plus the error.  There is no check of the item's current
status. -/
def processRenderJob (post : Post) (result : RenderResult)
    (storageUrlBase : Option String) (outputDir : String) : Post :=
  let filename :=
    post.id ++ (if post.format == Format.static then ".png" else ".mp4")
  let outputPath := outputDir ++ "/" ++ filename
  if result.success then
    let assetUrl :=
      match storageUrlBase with
      | some base => base ++ filename
      | none => "file://" ++ outputPath
    let newStatus :=
      if post.format == Format.video then Status.awaiting_manual_publish
      else Status.generated
    { post with
        status := newStatus,
        assetPath := some outputPath,
        assetUrl := some assetUrl }
  else
    { post with
        status := Status.failed,
        error := some ("Error: " ++ result.error.getD "undefined") }

/-- `db.getReadyToPublish(platform)`: items of the platform in status
`generated` whose scheduled instant has passed. -/
def getReadyToPublish (posts : List Post) (platform : String) (now : Nat) :
    List Post :=
  posts.filter (fun p =>
    p.platform == platform && p.status == Status.generated &&
      decide (p.scheduledAt ≤ now))

/-- The periodic `checkAndPublish` sweep: when Instagram auto-publish is
on, enqueues a publish job for each ready item — but only for static
formats (videos require manual publish).  Returns the enqueued post
ids. -/
def checkAndPublish (settings : Settings) (posts : List Post) (now : Nat) :
    List String :=
  if settings.instagramEnabled && settings.autoPublishInstagram then
    (((getReadyToPublish posts "instagram" now).filter
      (fun p => p.format == Format.static)).map (fun p => p.id))
  else []

/-! ## Publish stage (`processPublishJob`) -/

/-- Instagram credentials record. -/
structure Credentials where
  accessToken : String
  accountId : String
deriving DecidableEq, Repr

/-- An invocation of the publish collaborator
(`publishImage` / `publishVideo`). -/
inductive PublishCall where
  | image (url caption : String) (hashtags : List String)
  | video (url caption : String) (hashtags : List String)
deriving DecidableEq, Repr

/-- Result of the publish collaborator. -/
structure PublishResult where
  success : Bool
  postId : Option String
  error : Option String
deriving DecidableEq, Repr

/-- Outcome of a publish-stage handler run: the item row afterwards, the
collaborator calls made, and whether the handler completed without
throwing. -/
structure PublishOutcome where
  post : Post
  calls : List PublishCall
  ok : Bool
deriving DecidableEq, Repr

/-- JS `String.prototype.startsWith`, over character lists. -/
def strStartsWith (s pre : String) : Bool :=
  pre.data.isPrefixOf s.data

/-- JS falsiness of `post.assetUrl` combined with the
`assetUrl.startsWith('file://')` test: a missing, empty or local-file
asset reference. -/
def localAsset (assetUrl : Option String) : Bool :=
  match assetUrl with
  | none => true
  | some u => u == "" || strStartsWith u "file://"

/-- `processPublishJob(postId)`: a no-op unless the item is in status
`generated`; then marks it `publishing`, requires credentials and a
public (non-`file://`) asset URL before calling the publish
collaborator, and finalizes `published` (with the platform post id) or
`failed` (with the error). -/
def processPublishJob (post : Post) (credentials : Option Credentials)
    (publishResult : PublishCall → PublishResult) : PublishOutcome :=
  if !(post.status == Status.generated) then
    ⟨post, [], true⟩
  else
    let post1 := { post with status := Status.publishing }
    match credentials with
    | none =>
      ⟨{ post1 with
          status := Status.failed,
          error := some "Error: Instagram credentials not configured" }, [], false⟩
    | some _ =>
      if localAsset post.assetUrl then
        ⟨{ post1 with
            status := Status.failed,
            error := some "Error: Asset must be uploaded to public URL" }, [], false⟩
      else
        let url := post.assetUrl.getD ""
        let call :=
          if post.format == Format.static then
            PublishCall.image url post.caption post.hashtags
          else
            PublishCall.video url post.caption post.hashtags
        let result := publishResult call
        if result.success then
          ⟨{ post1 with
              status := Status.published,
              platformPostId := result.postId }, [call], true⟩
        else
          ⟨{ post1 with
              status := Status.failed,
              error := some ("Error: " ++ result.error.getD "undefined") }, [call], false⟩

/-! ## Render lock (`src/utils/renderLock.ts`) -/

/-- Module state of `renderLock.ts`: `currentRender` identifies the
pending promise created by the current holder (`none` = free), and
`waitingCount` counts callers inside `acquireRenderLock`. -/
structure LockState where
  currentRender : Option Nat
  waitingCount : Nat
deriving DecidableEq, Repr

/-- The release closure returned by `acquireRenderLock`: it sets
`currentRender = null` unconditionally (and resolves its promise), with
no check that the lock it clears is still its own. -/
def releaseHandle (s : LockState) : LockState :=
  ⟨none, s.waitingCount⟩

/-- Where a caller of `acquireRenderLock` stands: not yet called, inside
the wait loop, holding the lock, released, or timed out. -/
inductive TaskPhase where
  | idle
  | waiting
  | holding
  | done
  | timedout
deriving DecidableEq, Repr

/-- A system of concurrent callers: the lock module state plus one phase
per caller (task `t` is entry `t` of the list). -/
structure LockSys where
  lock : LockState
  tasks : List TaskPhase
deriving DecidableEq, Repr

/-- Interleaving semantics of `acquireRenderLock` under the
single-threaded event loop: code between two `await` points runs
atomically.  `start` enters the function and increments `waitingCount`;
`acquire` observes `currentRender === null`, installs its own promise
and returns the release handle — crucially the null test and the
assignment are one atomic step, as in the source they are separated by
no `await`; `timeout` abandons a wait whose deadline elapsed while
another render is in flight; `release` invokes the holder's release
handle, clearing `currentRender`. -/
inductive LockStep : LockSys → LockSys → Prop where
  | start (s : LockSys) (t : Nat) :
      s.tasks.get? t = some TaskPhase.idle →
      LockStep s ⟨⟨s.lock.currentRender, s.lock.waitingCount + 1⟩,
        s.tasks.set t TaskPhase.waiting⟩
  | acquire (s : LockSys) (t : Nat) :
      s.tasks.get? t = some TaskPhase.waiting →
      s.lock.currentRender = none →
      LockStep s ⟨⟨some t, s.lock.waitingCount - 1⟩,
        s.tasks.set t TaskPhase.holding⟩
  | timeout (s : LockSys) (t u : Nat) :
      s.tasks.get? t = some TaskPhase.waiting →
      s.lock.currentRender = some u →
      LockStep s ⟨⟨s.lock.currentRender, s.lock.waitingCount - 1⟩,
        s.tasks.set t TaskPhase.timedout⟩
  | release (s : LockSys) (t : Nat) :
      s.tasks.get? t = some TaskPhase.holding →
      LockStep s ⟨⟨none, s.lock.waitingCount⟩,
        s.tasks.set t TaskPhase.done⟩

/-- Initial system: lock free, `n` callers yet to invoke
`acquireRenderLock`. -/
def lockInit (n : Nat) : LockSys :=
  ⟨⟨none, 0⟩, List.replicate n TaskPhase.idle⟩

/-- States reachable by any interleaving of `n` concurrent callers. -/
def LockReachable (n : Nat) (s : LockSys) : Prop :=
  Relation.ReflTransGen LockStep (lockInit n) s

/-- Lock-ownership invariant: any caller that has returned from
`acquireRenderLock` and not yet released owns `currentRender`. -/
def HolderOwnsLock (s : LockSys) : Prop :=
  ∀ t, s.tasks.get? t = some TaskPhase.holding →
    s.lock.currentRender = some t

/-! ## Sample data for concrete instantiations -/

/-- The default settings row of `db.getSettings`. -/
def sampleSettings : Settings :=
  ⟨"Europe/Lisbon", 5, "09:00", "23:00", true, true, true⟩

/-- A pending post for 2025-01-02. -/
def samplePost : Post :=
  mkPost "p1" "instagram" Format.static "palette1" "2025-01-02" "09:00"

/-- A generator whose every attempt yields a fitting quote. -/
def fitGen : Nat → GeneratedContent :=
  fun _ => ⟨⟨"Progress hides in the ordinary moments.", "insight"⟩,
    "caption", ["growth"], "alt text"⟩

/-- A generator whose every attempt yields a 201-character quote, which
never fits. -/
def longGen : Nat → GeneratedContent :=
  fun _ => ⟨⟨String.mk (List.replicate 201 'a'), "insight"⟩, "", [], ""⟩

end Factory

namespace Factory

/-! ## Claim C6: time slots for count 4 in the 09:00–23:00 window -/

/-- C6, counterexample: the claimed four timestamps
`09:00, 14:40, 18:20, 23:00` are NOT what the interval formula yields for
`count = 4` over `["09:00", "23:00"]` — the interval is `840 / 3 = 280`
minutes (4 h 40 min), so the second slot is `13:40`, not `14:40`. -/
theorem calculateTimes_spec_value_false :
    calculateTimes 4 "09:00" "23:00" ≠ ["09:00", "14:40", "18:20", "23:00"] := by
  decide

/-- C6, amended: for `count = 4` and window `["09:00", "23:00"]` the
time-slot computation yields exactly `09:00, 13:40, 18:20, 23:00`, in
that order. -/
theorem calculateTimes_four_slots :
    calculateTimes 4 "09:00" "23:00" = ["09:00", "13:40", "18:20", "23:00"] := by
  decide

/-! ## Claim C1: daily scheduling is idempotent per calendar date -/

/-- C1: if any post already exists for date `D`, `scheduleDailyPosts`
creates zero additional posts, enqueues no content jobs, and returns
successfully — the post table is unchanged and the job list empty. -/
theorem scheduleDailyPosts_idempotent (settings : Settings) (dateStr : String)
    (posts : List Post) (recentPalettes : List String)
    (newId : Nat → String) (rands : Nat → Nat)
    (h : postsExistForDate posts dateStr = true) :
    scheduleDailyPosts settings dateStr posts recentPalettes newId rands =
      ⟨posts, []⟩ := by
  simp [scheduleDailyPosts, h]

/-- C1, witness: a concrete run against a table already holding a post
for 2025-01-02. -/
theorem scheduleDailyPosts_idempotent_witness :
    scheduleDailyPosts sampleSettings "2025-01-02" [samplePost] []
      (fun _ => "p2") (fun _ => 0) = ⟨[samplePost], []⟩ :=
  scheduleDailyPosts_idempotent sampleSettings "2025-01-02" [samplePost] []
    (fun _ => "p2") (fun _ => 0) (by decide)

/-! ## Claim C3: video renders await manual publish, static auto-publish -/

/-- C3: on a successful render a video-format item is set to
`awaiting_manual_publish` (never `generated`), a static-format item to
`generated` (never `awaiting_manual_publish`), and the periodic sweep
enqueues publish jobs only for static-format items in status
`generated`. -/
theorem render_video_manual_static_auto :
    (∀ post result base outDir, result.success = true →
        post.format = Format.video →
        (processRenderJob post result base outDir).status =
            Status.awaiting_manual_publish ∧
        (processRenderJob post result base outDir).status ≠ Status.generated) ∧
    (∀ post result base outDir, result.success = true →
        post.format = Format.static →
        (processRenderJob post result base outDir).status = Status.generated ∧
        (processRenderJob post result base outDir).status ≠
            Status.awaiting_manual_publish) ∧
    (∀ settings posts now pid, pid ∈ checkAndPublish settings posts now →
        ∃ p, p ∈ posts ∧ p.id = pid ∧ p.format = Format.static ∧
          p.status = Status.generated) := by
  refine ⟨?_, ?_, ?_⟩
  · intro post result base outDir hs hf
    simp [processRenderJob, hs, hf]
  · intro post result base outDir hs hf
    simp [processRenderJob, hs, hf]
  · intro settings posts now pid hmem
    unfold checkAndPublish at hmem
    split at hmem
    · simp only [List.mem_map] at hmem
      obtain ⟨p, hp, rfl⟩ := hmem
      rw [List.mem_filter] at hp
      obtain ⟨hp1, hp2⟩ := hp
      unfold getReadyToPublish at hp1
      rw [List.mem_filter] at hp1
      obtain ⟨hp3, hp4⟩ := hp1
      simp only [Bool.and_eq_true, beq_iff_eq, decide_eq_true_eq] at hp4
      exact ⟨p, hp3, rfl, beq_iff_eq.mp hp2, hp4.1.2⟩
    · simp at hmem

/-- C3, witness: a concrete successful static render. -/
theorem render_video_manual_static_auto_witness :
    (processRenderJob samplePost ⟨true, none⟩ none "/data/out").status =
        Status.generated ∧
    (processRenderJob samplePost ⟨true, none⟩ none "/data/out").status ≠
        Status.awaiting_manual_publish :=
  render_video_manual_static_auto.2.1 samplePost ⟨true, none⟩ none "/data/out"
    (by decide) (by decide)

/-! ## Claim C4: content retry loop bounded at 5, failure on exhaustion -/

/-- Each iteration of the retry loop invokes the generator once, so the
returned attempt counter equals the number of generator invocations;
started below the bound it never exceeds 5. -/
theorem retryLoop_count_le (gen : Nat → GeneratedContent) :
    ∀ fuel attempts, attempts < 5 → (retryLoop gen attempts fuel).2 ≤ 5 := by
  intro fuel
  induction fuel with
  | zero =>
    intro a ha
    simp only [retryLoop]
    omega
  | succ f ih =>
    intro a ha
    simp only [retryLoop]
    split
    · rename_i hcond
      simp only [Bool.and_eq_true, decide_eq_true_eq] at hcond
      exact ih (a + 1) hcond.2
    · omega

/-- The candidate the loop returns is the one produced by its final
generator invocation. -/
theorem retryLoop_last (gen : Nat → GeneratedContent) :
    ∀ fuel attempts,
      (retryLoop gen attempts fuel).1 =
        gen ((retryLoop gen attempts fuel).2 - 1) := by
  intro fuel
  induction fuel with
  | zero =>
    intro a
    simp [retryLoop]
  | succ f ih =>
    intro a
    simp only [retryLoop]
    split
    · exact ih (a + 1)
    · simp

/-- C4: the retry loop invokes the generator at most 5 times; when no
attempt below the bound fits, the item ends `failed` with a non-empty
error and no render job is enqueued. -/
theorem content_retry_bounded :
    (∀ gen, (retryLoop gen 0 5).2 ≤ 5) ∧
    (∀ post gen,
        (∀ i, i < 5 → checkQuoteFit (gen i).quote.text = false) →
        (processContentJob post gen).post.status = Status.failed ∧
        (∃ e, (processContentJob post gen).post.error = some e ∧ 0 < e.length) ∧
        (processContentJob post gen).renderJobs = []) := by
  constructor
  · intro gen
    exact retryLoop_count_le gen 5 0 (by omega)
  · intro post gen hall
    have hfit : checkQuoteFit (retryLoop gen 0 5).1.quote.text = false := by
      rw [retryLoop_last gen 5 0]
      refine hall _ ?_
      have := retryLoop_count_le gen 5 0 (by omega)
      omega
    refine ⟨?_, ⟨"Error: Could not generate quote that fits", ?_, by decide⟩, ?_⟩ <;>
      simp [processContentJob, hfit]

set_option maxRecDepth 4000 in
/-- C4, witness: a generator that always produces a 201-character quote
exhausts the loop; the item fails with a non-empty error and no render
job. -/
theorem content_retry_bounded_witness :
    (processContentJob samplePost longGen).post.status = Status.failed ∧
    (∃ e, (processContentJob samplePost longGen).post.error = some e ∧
      0 < e.length) ∧
    (processContentJob samplePost longGen).renderJobs = [] :=
  content_retry_bounded.2 samplePost longGen
    (fun i _ => by simp only [longGen]; decide)

/-! ## Claim C5: expected-status checks in the stage handlers -/

/-- A post that already reached the terminal status `published`. -/
def donePost : Post :=
  { mkPost "p9" "instagram" Format.static "palette1" "2025-01-03" "10:00" with
      status := Status.published }

/-- C5, counterexample: the content handler does NOT verify the item's
status — on an item already `published` it still mutates the row,
setting status `generating` (and then writing the generated payload),
so the claimed universal load-verify-no-op discipline fails for the
content stage. -/
theorem content_handler_ignores_status :
    (processContentJob donePost fitGen).post.status = Status.generating ∧
    Status.generating ≠ Status.published ∧
    (processContentJob donePost fitGen).post ≠ donePost := by
  decide

/-- C5, amended: only the publish handler verifies the status its stage
expects (`generated`) and is a field-preserving no-op otherwise; the
content handler unconditionally moves any item to `generating` (or
`failed`), and the render handler applies its success transition
regardless of the item's current status. -/
theorem only_publish_handler_checks_status :
    (∀ post creds pub, post.status ≠ Status.generated →
        processPublishJob post creds pub = ⟨post, [], true⟩) ∧
    (∀ post gen,
        (processContentJob post gen).post.status = Status.generating ∨
        (processContentJob post gen).post.status = Status.failed) ∧
    (∀ post result base outDir, result.success = true →
        (processRenderJob post result base outDir).status =
          (if post.format == Format.video then Status.awaiting_manual_publish
           else Status.generated)) := by
  refine ⟨?_, ?_, ?_⟩
  · intro post creds pub h
    have hb : (post.status == Status.generated) = false :=
      beq_eq_false_iff_ne.mpr h
    simp [processPublishJob, hb]
  · intro post gen
    cases h : checkQuoteFit (retryLoop gen 0 5).1.quote.text with
    | false =>
      right
      simp [processContentJob, h]
    | true =>
      left
      simp [processContentJob, h]
  · intro post result base outDir hs
    simp [processRenderJob, hs]

/-- C5, witness: the publish handler on a still-`pending` item returns it
untouched with no collaborator calls and no error. -/
theorem only_publish_handler_checks_status_witness :
    processPublishJob samplePost (some ⟨"token", "account"⟩)
      (fun _ => ⟨true, some "ig1", none⟩) = ⟨samplePost, [], true⟩ :=
  only_publish_handler_checks_status.1 samplePost (some ⟨"token", "account"⟩)
    (fun _ => ⟨true, some "ig1", none⟩) (by decide)

/-! ## Claim C7: publish requires a public asset URL -/

/-- C7: an item in status `generated` whose asset URL is absent, empty or
a `file://` reference is rejected — status `failed` with the specific
error and no collaborator call; and in every run of the handler, a
collaborator call is made only when the asset URL is a present,
non-local URL. -/
theorem publish_requires_public_url :
    (∀ post c pub, post.status = Status.generated →
        localAsset post.assetUrl = true →
        (processPublishJob post (some c) pub).post.status = Status.failed ∧
        (processPublishJob post (some c) pub).post.error =
          some "Error: Asset must be uploaded to public URL" ∧
        (processPublishJob post (some c) pub).calls = []) ∧
    (∀ post creds pub, (processPublishJob post creds pub).calls ≠ [] →
        localAsset post.assetUrl = false) := by
  constructor
  · intro post c pub hst hloc
    have hb : (post.status == Status.generated) = true := beq_iff_eq.mpr hst
    simp [processPublishJob, hb, hloc]
  · intro post creds pub hcalls
    by_contra hloc
    have hloc' : localAsset post.assetUrl = true := by
      revert hloc
      cases localAsset post.assetUrl <;> simp
    unfold processPublishJob at hcalls
    split at hcalls
    · exact hcalls rfl
    · cases creds with
      | none => exact hcalls rfl
      | some c =>
        simp only [hloc'] at hcalls
        simp at hcalls

/-- C7, witness: a `generated` item whose asset is still a local
`file://` path is failed with the specific error and the collaborator is
never invoked. -/
theorem publish_requires_public_url_witness :
    (processPublishJob
        { samplePost with
            status := Status.generated,
            assetUrl := some "file:///data/out/p1.png" }
        (some ⟨"token", "account"⟩)
        (fun _ => ⟨true, some "ig1", none⟩)).post.status = Status.failed ∧
    (processPublishJob
        { samplePost with
            status := Status.generated,
            assetUrl := some "file:///data/out/p1.png" }
        (some ⟨"token", "account"⟩)
        (fun _ => ⟨true, some "ig1", none⟩)).post.error =
      some "Error: Asset must be uploaded to public URL" ∧
    (processPublishJob
        { samplePost with
            status := Status.generated,
            assetUrl := some "file:///data/out/p1.png" }
        (some ⟨"token", "account"⟩)
        (fun _ => ⟨true, some "ig1", none⟩)).calls = [] :=
  publish_requires_public_url.1
    { samplePost with
        status := Status.generated,
        assetUrl := some "file:///data/out/p1.png" }
    ⟨"token", "account"⟩ (fun _ => ⟨true, some "ig1", none⟩)
    (by decide) (by decide)

/-! ## Claim C9: idempotence of the release handle -/

/-- C9, counterexample: the claim fails on the code.  The interleaving
"task 0 acquires, releases, task 1 acquires" is reachable and leaves
task 1 holding the lock (`currentRender = some 1`); invoking task 0's
release handle a second time in that state is not a no-op — the handle
sets `currentRender = null` unconditionally, releasing the lock held by
the later acquirer. -/
theorem releaseHandle_clears_later_holder :
    LockReachable 2 ⟨⟨some 1, 0⟩, [TaskPhase.done, TaskPhase.holding]⟩ ∧
    (⟨⟨some 1, 0⟩, [TaskPhase.done, TaskPhase.holding]⟩ : LockSys).tasks.get? 1 =
      some TaskPhase.holding ∧
    releaseHandle ⟨some 1, 0⟩ ≠ (⟨some 1, 0⟩ : LockState) ∧
    (releaseHandle ⟨some 1, 0⟩).currentRender = none := by
  refine ⟨?_, rfl, by decide, rfl⟩
  exact Relation.ReflTransGen.tail
    (Relation.ReflTransGen.tail
      (Relation.ReflTransGen.tail
        (Relation.ReflTransGen.tail
          (Relation.ReflTransGen.tail Relation.ReflTransGen.refl
            (LockStep.start (lockInit 2) 0 rfl))
          (LockStep.acquire _ 0 rfl rfl))
        (LockStep.release _ 0 rfl))
      (LockStep.start _ 1 rfl))
    (LockStep.acquire _ 1 rfl rfl)

/-- C9, amended: invoking the release handle is idempotent as a state
transformer — a second invocation with no intervening acquire leaves the
lock state exactly as after the first — but the handle is unguarded: it
clears `currentRender` whatever its value, so a stale invocation CAN
release a lock held by a later acquirer. -/
theorem releaseHandle_unconditional :
    (∀ s, releaseHandle (releaseHandle s) = releaseHandle s) ∧
    (∀ s, (releaseHandle s).currentRender = none) :=
  ⟨fun _ => rfl, fun _ => rfl⟩

/-! ## Claim C2: mutual exclusion of the render lock -/

/-- Every step of the interleaving semantics preserves the ownership
invariant: the `acquire` step requires `currentRender = none`, which the
invariant ties to the absence of any holder, and installs the new
holder's own promise. -/
theorem lockStep_preserves_holderOwns {s s' : LockSys}
    (h : LockStep s s') (hi : HolderOwnsLock s) : HolderOwnsLock s' := by
  cases h with
  | start t ht =>
    intro u hu
    simp only at hu ⊢
    rw [List.get?_set] at hu
    split at hu
    · cases hgu : s.tasks.get? u <;> rw [hgu] at hu <;> simp at hu
    · exact hi u hu
  | acquire t ht hnone =>
    intro u hu
    simp only at hu ⊢
    rw [List.get?_set] at hu
    split at hu
    · rename_i heq
      exact congrArg some heq
    · have := hi u hu
      rw [hnone] at this
      exact absurd this (by simp)
  | timeout t u' ht hsome =>
    intro u hu
    simp only at hu ⊢
    rw [List.get?_set] at hu
    split at hu
    · cases hgu : s.tasks.get? u <;> rw [hgu] at hu <;> simp at hu
    · exact hi u hu
  | release t ht =>
    intro u hu
    simp only at hu ⊢
    rw [List.get?_set] at hu
    split at hu
    · cases hgu : s.tasks.get? u <;> rw [hgu] at hu <;> simp at hu
    · have h1 := hi u hu
      have h2 := hi t ht
      rw [h2] at h1
      rename_i hne
      exact absurd (Option.some.inj h1) hne

/-- Every reachable state satisfies the ownership invariant. -/
theorem lockReachable_holderOwns {n : Nat} {s : LockSys}
    (h : LockReachable n s) : HolderOwnsLock s := by
  induction h with
  | refl =>
    intro t ht
    exfalso
    have hmem : TaskPhase.holding ∈ List.replicate n TaskPhase.idle :=
      List.get?_mem ht
    simp [List.mem_replicate] at hmem
  | tail hsteps hstep ih =>
    exact lockStep_preserves_holderOwns hstep ih

/-- C2: the render lock is mutually exclusive — in every state reachable
by any interleaving of concurrent `acquireRenderLock` callers (including
timeouts and releases), at most one caller is holding the lock: any two
holders coincide.  An `acquire` step needs `currentRender = none`, so no
second caller can return from `acquireRenderLock` until the current
holder's release handle has been invoked (or the waiter times out into
an error). -/
theorem renderLock_mutual_exclusion (n : Nat) (s : LockSys)
    (hs : LockReachable n s) (t u : Nat)
    (ht : s.tasks.get? t = some TaskPhase.holding)
    (hu : s.tasks.get? u = some TaskPhase.holding) : t = u := by
  have h1 := lockReachable_holderOwns hs t ht
  have h2 := lockReachable_holderOwns hs u hu
  rw [h1] at h2
  exact Option.some.inj h2

/-- C2, witness: a concrete interleaving of two callers in which caller 0
holds the lock. -/
theorem renderLock_mutual_exclusion_witness :
    (⟨⟨some 0, 0⟩, [TaskPhase.holding, TaskPhase.idle]⟩ : LockSys).tasks.get? 0 =
      some TaskPhase.holding ∧ (0 : Nat) = 0 := by
  have hreach : LockReachable 2 ⟨⟨some 0, 0⟩, [TaskPhase.holding, TaskPhase.idle]⟩ :=
    Relation.ReflTransGen.tail
      (Relation.ReflTransGen.tail Relation.ReflTransGen.refl
        (LockStep.start (lockInit 2) 0 rfl))
      (LockStep.acquire _ 0 rfl rfl)
  exact ⟨rfl, renderLock_mutual_exclusion 2 _ hreach 0 0 rfl rfl⟩

/-! ## Claim C8: palette anti-repetition -/

/-- The candidate list inside `selectPalette` is never empty: the
exclusion removes at most the single most recent id from the three
distinct palettes. -/
theorem availablePalettes_pos (recent : List String) :
    0 < (availablePalettes recent).length := by
  unfold availablePalettes
  dsimp only
  split
  · by_cases h1 : recent.head? = some "palette1"
    · have hmem : palette2 ∈
          templatePalettes.filter (fun p => !(some p.id == recent.head?)) := by
        rw [List.mem_filter]
        refine ⟨by decide, ?_⟩
        rw [h1]
        decide
      exact List.length_pos_of_mem hmem
    · have hb : (some "palette1" == recent.head?) = false :=
        beq_eq_false_iff_ne.mpr (fun hh => h1 hh.symm)
      have hmem : palette1 ∈
          templatePalettes.filter (fun p => !(some p.id == recent.head?)) := by
        rw [List.mem_filter]
        exact ⟨by decide, by simp [palette1, hb]⟩
      exact List.length_pos_of_mem hmem
  · decide

/-- The selected palette is always one of the candidates. -/
theorem selectPalette_mem (recent : List String) (rand : Nat) :
    selectPalette recent rand ∈ availablePalettes recent := by
  have hpos := availablePalettes_pos recent
  have hlt : rand % (availablePalettes recent).length <
      (availablePalettes recent).length := Nat.mod_lt _ hpos
  simp only [selectPalette, List.getD_eq_get?, List.get?_eq_get hlt,
    Option.getD_some]
  exact List.get_mem _ _ _

/-- Every candidate is selected by some random draw (the draw is
`Math.floor(Math.random() * available.length)`, uniform over the
candidate indices). -/
theorem selectPalette_surjective (recent : List String) (p : Palette)
    (hp : p ∈ availablePalettes recent) :
    ∃ rand, selectPalette recent rand = p := by
  rw [List.mem_iff_get] at hp
  obtain ⟨⟨i, hi⟩, hget⟩ := hp
  refine ⟨i, ?_⟩
  simp only [selectPalette, Nat.mod_eq_of_lt hi, List.getD_eq_get?,
    List.get?_eq_get hi, Option.getD_some]
  exact hget

/-- When the most recent palette id fills the last
`maxConsecutiveSamePalette = 2` entries, that id is excluded: the
selection differs from it. -/
theorem selectPalette_excludes (a : String) (rest : List String) (rand : Nat) :
    (selectPalette (a :: a :: rest) rand).id ≠ a := by
  have hmem := selectPalette_mem (a :: a :: rest) rand
  have havail : availablePalettes (a :: a :: rest) =
      templatePalettes.filter (fun p => !(some p.id == some a)) := by
    simp [availablePalettes, maxConsecutiveSamePalette]
  rw [havail] at hmem
  have hfilter := List.of_mem_filter hmem
  simp only [Bool.not_eq_true'] at hfilter
  intro hcontra
  rw [hcontra] at hfilter
  simp at hfilter

/-- A run of selections (each unshifted onto the recent list) never picks
the same palette three times in a row. -/
theorem selAt_no_three_consecutive (rands : Nat → Nat) (recent0 : List String)
    (n : Nat) :
    ¬((selAt rands recent0 n).id = (selAt rands recent0 (n + 1)).id ∧
      (selAt rands recent0 (n + 1)).id = (selAt rands recent0 (n + 2)).id) := by
  rintro ⟨h1, h2⟩
  have key : selPaletteSeq rands recent0 (n + 2) =
      (selAt rands recent0 n).id :: (selAt rands recent0 n).id ::
        selPaletteSeq rands recent0 n := by
    show (selAt rands recent0 (n + 1)).id :: selPaletteSeq rands recent0 (n + 1) = _
    rw [← h1]
    rfl
  have hne := selectPalette_excludes (selAt rands recent0 n).id
    (selPaletteSeq rands recent0 n) (rands (n + 2))
  apply hne
  have hsel : selAt rands recent0 (n + 2) =
      selectPalette ((selAt rands recent0 n).id :: (selAt rands recent0 n).id ::
        selPaletteSeq rands recent0 n) (rands (n + 2)) := by
    show selectPalette (selPaletteSeq rands recent0 (n + 2)) (rands (n + 2)) = _
    rw [key]
  rw [← hsel]
  exact (h1.trans h2).symm

/-- C8: when the most recent palette id occupies all of the last
`K = maxConsecutiveSamePalette` entries, `selectPalette` returns a
palette with a different id; the selection always lies in the remaining
candidate list, each remaining candidate is reachable by some random
draw (uniformity of `Math.random` over the candidate indices); and over
any sequence of selections no palette is picked more than `K = 2`
consecutive times.  The "all candidates if exclusion would empty the
set" fallback of the claim can never fire: exclusion removes at most one
of the three distinct palettes. -/
theorem selectPalette_anti_repetition :
    (∀ a rest rand, (selectPalette (a :: a :: rest) rand).id ≠ a) ∧
    (∀ recent rand, selectPalette recent rand ∈ availablePalettes recent) ∧
    (∀ recent p, p ∈ availablePalettes recent →
        ∃ rand, selectPalette recent rand = p) ∧
    (∀ rands recent0 n,
        ¬((selAt rands recent0 n).id = (selAt rands recent0 (n + 1)).id ∧
          (selAt rands recent0 (n + 1)).id = (selAt rands recent0 (n + 2)).id)) :=
  ⟨selectPalette_excludes, selectPalette_mem, selectPalette_surjective,
    selAt_no_three_consecutive⟩

/-- C8, witness: after `palette1` twice in a row, `palette2` is among the
remaining candidates and is selected by draw `0`. -/
theorem selectPalette_anti_repetition_witness :
    ∃ rand, selectPalette ["palette1", "palette1"] rand = palette2 :=
  selectPalette_anti_repetition.2.2.1 ["palette1", "palette1"] palette2
    (by decide)

/-! ## Claim C10: the fitness predicate is a pure length bound -/

/-- All fifteen fallback quotes satisfy the fitness predicate. -/
theorem fallback_all_fit :
    ((fallbackInquiry ++ fallbackManifesto) ++ fallbackInsight).all
      checkQuoteFit = true := by
  decide

/-- Membership version of `fallback_all_fit`, for any type key. -/
theorem fallbackQuotes_fit (t : String) :
    ∀ q ∈ fallbackQuotes t, checkQuoteFit q = true := by
  intro q hq
  have hall := fallback_all_fit
  rw [List.all_eq_true] at hall
  apply hall
  unfold fallbackQuotes at hq
  split at hq
  · exact List.mem_append_left _ (List.mem_append_left _ hq)
  · split at hq
    · exact List.mem_append_left _ (List.mem_append_right _ hq)
    · exact List.mem_append_right _ hq

/-- Whatever the random draws and similarity filtering, the fallback
quote fits. -/
theorem getFallbackQuote_fit (recent : List String) (r1 r2 : Nat) :
    checkQuoteFit (getFallbackQuote recent r1 r2).text = true := by
  unfold getFallbackQuote
  simp only []
  generalize hpool :
    (if ((fallbackQuotes (selectTypeFromRand r1)).filter
          (fun q => !(isTooSimilar q recent))).length > 0 then
      (fallbackQuotes (selectTypeFromRand r1)).filter
        (fun q => !(isTooSimilar q recent))
    else fallbackQuotes (selectTypeFromRand r1)) = pool
  have hpools : ∀ q ∈ pool, checkQuoteFit q = true := by
    intro q hq
    rw [← hpool] at hq
    split at hq
    · exact fallbackQuotes_fit _ q (List.mem_of_mem_filter hq)
    · exact fallbackQuotes_fit _ q hq
  by_cases h : r2 % pool.length < pool.length
  · refine hpools _ ?_
    simp only [List.getD_eq_get?, List.get?_eq_get h, Option.getD_some]
    exact List.get_mem _ _ _
  · have hlen : pool.length = 0 := by
      by_contra hne
      exact h (Nat.mod_lt _ (Nat.pos_of_ne_zero hne))
    rw [List.length_eq_zero] at hlen
    rw [hlen]
    exact rfl

/-- C10: `checkQuoteFit q` holds exactly when `q` has at most 200
characters — no line-count or layout constraint; every quote the
generator can produce (API text validated to at most 120 characters, or
a fallback quote, all shorter than 200) fits; hence the content retry
loop accepts the first attempt, invoking the generator exactly once. -/
theorem checkQuoteFit_length_only :
    (∀ q, checkQuoteFit q = true ↔ q.length ≤ 200) ∧
    (∀ apiText targetType recent r1 r2,
        checkQuoteFit (generateQuote apiText targetType recent r1 r2).text = true) ∧
    (∀ gen, checkQuoteFit (gen 0).quote.text = true →
        (retryLoop gen 0 5).2 = 1) := by
  refine ⟨?_, ?_, ?_⟩
  · intro q
    simp [checkQuoteFit]
  · intro apiText targetType recent r1 r2
    cases apiText with
    | none => exact getFallbackQuote_fit recent r1 r2
    | some text =>
      simp only [generateQuote]
      split
      · exact getFallbackQuote_fit recent r1 r2
      · rename_i hval
        split
        · exact getFallbackQuote_fit recent r1 r2
        · simp only [Bool.or_eq_true, beq_iff_eq, decide_eq_true_eq,
            not_or] at hval
          simp only [checkQuoteFit, decide_eq_true_eq]
          omega
  · intro gen hfit
    simp [retryLoop, hfit]

/-- C10, witness: a fitting first candidate makes the loop stop after one
generator invocation. -/
theorem checkQuoteFit_length_only_witness :
    (retryLoop fitGen 0 5).2 = 1 :=
  checkQuoteFit_length_only.2.2 fitGen (by decide)

end Factory
